import Mathlib

/-!
Shallow embedding of the HealthPulse_USA content pipeline
(`config.py`, `agents/definitions.py`, `agents/orchestrator.py`,
`utils/document_export.py`) and proofs about it.

Python string primitives are modelled as structural recursion over
`List Char` (wrapped back into `String`), so that every definition is
executable and kernel-reducible: `str.split(sep)` for a one-character
separator is `pySplitOnChar`, `str.split()` is `pyWhitespaceSplit`,
`str.strip()` is `pyStrip`, `str.lower()` is `pyLower`,
`str.startswith(p)` is `pyStartsWith`, `str.replace(a, b)` is
`pyReplace`, `a in s` is `strContains`, slicing by code points is
`pyTake`/`pyDrop`, and `sep.join` is `pyJoin`.  Whitespace is modelled
as the six ASCII whitespace characters recognised by Python's `str`
methods (further Unicode whitespace is not modelled).  Python `float`
values are modelled as exact rationals (`ℚ`); `float(s)` is `pyFloat?`,
which accepts optionally signed decimal literals with an optional
exponent (the special values `inf`/`nan` and digit-group underscores
are modelled as parse failures).
-/

namespace HealthPulse

/-- Whitespace for Python `str.strip` / `str.split()`: the six ASCII
whitespace characters. -/
def pyIsSpace (c : Char) : Bool :=
  c = ' ' || c = '\t' || c = '\n' || c = '\r' || c = '\x0b' || c = '\x0c'

/-- Python `str.strip()` on a character list. -/
def pyStripL (cs : List Char) : List Char :=
  ((cs.dropWhile pyIsSpace).reverse.dropWhile pyIsSpace).reverse

/-- Python `str.strip()`. -/
def pyStrip (s : String) : String :=
  ⟨pyStripL s.data⟩

/-- Python `str.lower()` (ASCII range; Python's full Unicode case map is
not modelled). -/
def pyLower (s : String) : String :=
  ⟨s.data.map (fun c =>
    if 'A' ≤ c && c ≤ 'Z' then Char.ofNat (c.toNat + 32) else c)⟩

/-- Python `s.startswith(p)`. -/
def pyStartsWith (s p : String) : Bool :=
  p.data.isPrefixOf s.data

/-- Substring search: does `hay` contain `needle`?  Models Python
`needle in hay`. -/
def listIsInfix (needle : List Char) : List Char → Bool
  | [] => needle.isEmpty
  | c :: rest => needle.isPrefixOf (c :: rest) || listIsInfix needle rest

/-- Python `needle in hay` on strings. -/
def strContains (hay needle : String) : Bool :=
  listIsInfix needle.data hay.data

/-- Python `s.split(sep)` for a one-character separator: split at every
occurrence, keeping empty pieces. -/
def splitOnCharL (sep : Char) : List Char → List (List Char)
  | [] => [[]]
  | c :: rest =>
    if c = sep then [] :: splitOnCharL sep rest
    else
      match splitOnCharL sep rest with
      | [] => [[c]]
      | h :: t => (c :: h) :: t

/-- Python `s.split(sep)` on strings, one-character separator. -/
def pySplitOnChar (sep : Char) (s : String) : List String :=
  (splitOnCharL sep s.data).map fun cs => ⟨cs⟩

/-- Python `s.split()` with no argument: split on whitespace runs,
dropping empty pieces. -/
def pyWhitespaceSplit (s : String) : List String :=
  (((s.data.splitOnP pyIsSpace)).filter (· ≠ [])).map fun cs => ⟨cs⟩

/-- One step of Python `s.replace(pat, rep)` with `fuel` bounding the
number of scanned characters; `pat` is assumed non-empty (every pattern
in the sources is). -/
def replaceAux (pat rep : List Char) : Nat → List Char → List Char
  | 0, s => s
  | _ + 1, [] => []
  | fuel + 1, c :: rest =>
    if pat.isPrefixOf (c :: rest) then
      rep ++ replaceAux pat rep fuel ((c :: rest).drop pat.length)
    else
      c :: replaceAux pat rep fuel rest

/-- Python `s.replace(pat, rep)` (all occurrences, left to right). -/
def pyReplace (s pat rep : String) : String :=
  if pat.data = [] then s
  else ⟨replaceAux pat.data rep.data s.data.length s.data⟩

/-- Python slicing `s[:n]` by code points. -/
def pyTake (s : String) (n : Nat) : String :=
  ⟨s.data.take n⟩

/-- Python slicing `s[n:]` by code points. -/
def pyDrop (s : String) (n : Nat) : String :=
  ⟨s.data.drop n⟩

/-- Python code-point length `len(s)`. -/
def pyLen (s : String) : Nat :=
  s.data.length

/-- Python `sep.join(parts)`. -/
def pyJoin (sep : String) : List String → String
  | [] => ""
  | [p] => p
  | p :: ps => p ++ sep ++ pyJoin sep ps

/-- Digits to a natural number, most significant first. -/
def digitsToNat (cs : List Char) : Nat :=
  cs.foldl (fun n c => n * 10 + (c.toNat - 48)) 0

/-- Optional sign at the head of a numeric literal; returns the sign and
the remaining characters. -/
def readSign : List Char → ℚ × List Char
  | '+' :: rest => (1, rest)
  | '-' :: rest => (-1, rest)
  | cs => (1, cs)

/-- Unsigned decimal mantissa `digits [. digits]` (at least one digit);
returns its exact rational value and the remaining characters. -/
def parseMantissa (cs : List Char) : Option (ℚ × List Char) :=
  let ip := cs.takeWhile Char.isDigit
  let r1 := cs.dropWhile Char.isDigit
  match r1 with
  | '.' :: r2 =>
    let fp := r2.takeWhile Char.isDigit
    let r3 := r2.dropWhile Char.isDigit
    if ip = [] && fp = [] then none
    else some ((digitsToNat ip : ℚ) + (digitsToNat fp : ℚ) / (10 : ℚ) ^ fp.length, r3)
  | _ => if ip = [] then none else some ((digitsToNat ip : ℚ), r1)

/-- Ten to the power `e` for an integer exponent `e`, as a rational. -/
def qpow10 (e : Int) : ℚ :=
  if 0 ≤ e then (10 : ℚ) ^ e.toNat else ((10 : ℚ) ^ (-e).toNat)⁻¹

/-- Python `float(s)`: strip whitespace, then an optionally signed
decimal literal with optional exponent; yields the exact rational value,
or `none` where Python raises `ValueError` (also on `inf`/`nan` and
underscore digit groups, which are not modelled). -/
def pyFloat? (s : String) : Option ℚ :=
  let cs := pyStripL s.data
  let (sign, cs1) := readSign cs
  match parseMantissa cs1 with
  | none => none
  | some (q, rest) =>
    match rest with
    | [] => some (sign * q)
    | e :: rest2 =>
      if e = 'e' || e = 'E' then
        let (esign, rest3) := readSign rest2
        let ed := rest3.takeWhile Char.isDigit
        let rest4 := rest3.dropWhile Char.isDigit
        if ed ≠ [] && rest4 = [] then
          some (sign * q * qpow10 (if esign = 1 then (digitsToNat ed : Int) else -(digitsToNat ed : Int)))
        else none
      else none

end HealthPulse

namespace HealthPulse

/-! ## Data model (`agents/definitions.py`)

The four dataclasses.  Python `float` fields are `ℚ`, `Dict[str, str]`
heading records are a two-field structure, `Dict[str, bool]` checklists
are association lists. -/

/-- A trending topic discovered by the Search Agent
(`definitions.py`, `TrendingTopic`). -/
structure TrendingTopic where
  title : String
  keywords : List String
  source : String
  relevance_score : ℚ
  description : String
  trending_reason : String
deriving DecidableEq

/-- One heading record (`{"level": ..., "text": ...}`). -/
structure Heading where
  level : String
  text : String
deriving DecidableEq

/-- An image suggestion (`{"description": ..., "alt_text": ...}`). -/
structure ImageSuggestion where
  description : String
  alt_text : String
deriving DecidableEq

/-- An SEO-optimized article (`definitions.py`, `SEOArticle`). -/
structure SEOArticle where
  title : String
  meta_description : String
  content : String
  primary_keywords : List String
  secondary_keywords : List String
  headings : List Heading
  word_count : Nat
  image_suggestions : List ImageSuggestion
  internal_links : List String
  external_links : List String
deriving DecidableEq

/-- SEO validation results (`definitions.py`, `SEOValidation`). -/
structure SEOValidation where
  overall_score : ℚ
  keyword_score : ℚ
  heading_score : ℚ
  length_score : ℚ
  readability_score : ℚ
  relevance_score : ℚ
  intent_score : ℚ
  validation_checklist : List (String × Bool)
  recommendations : List String
  pass_status : Bool
deriving DecidableEq

/-- Final consolidated output (`definitions.py`, `ConsolidatedOutput`);
`download_ready` carries the dataclass default `True`. -/
structure ConsolidatedOutput where
  article : SEOArticle
  seo_validation : SEOValidation
  trending_topic : TrendingTopic
  generation_timestamp : String
  category_path : String
  download_ready : Bool := true
deriving DecidableEq

/-! ## Topic taxonomy (`config.py`)

`TOPIC_HIERARCHY` is a dict whose values are dicts from subcategory
names to either a plain topic list or a dict from specific names to
topic lists.  Dicts become association lists (each literal has distinct
keys, and `List.lookup` models Python key lookup). -/

/-- Value of a subcategory entry in `TOPIC_HIERARCHY`: either a plain
list of topics or a dict of specific topics. -/
inductive SubcategoryData where
  | topics (ts : List String)
  | grouped (children : List (String × List String))
deriving DecidableEq

open SubcategoryData in
/-- Transcription of `config.TOPIC_HIERARCHY`, entry for entry. -/
def TOPIC_HIERARCHY : List (String × List (String × SubcategoryData)) :=
  [("GOVERNMENT PLANS",
    [("ALL", topics ["Medicare", "Medicaid", "ACA"]),
     ("Medicare", grouped
       [("ALL", ["Part A", "Part B", "Part C (Medicare Advantage)", "Part D", "Medigap", "Tricare", "VA Healthcare"]),
        ("Part A", ["Hospital Insurance", "Inpatient Care", "Skilled Nursing", "Hospice"]),
        ("Part B", ["Medical Insurance", "Outpatient Care", "Preventive Services", "Durable Medical Equipment"]),
        ("Part C (Medicare Advantage)", ["HMO Plans", "PPO Plans", "Special Needs Plans", "Private Fee-for-Service"]),
        ("Part D", ["Prescription Drug Coverage", "Formulary", "Coverage Gap", "Extra Help Program"]),
        ("Medigap", ["Supplement Insurance", "Policy Types", "Enrollment Periods"]),
        ("Tricare", ["Military Healthcare", "Tricare Prime", "Tricare Select", "Tricare for Life"]),
        ("VA Healthcare", ["Veterans Benefits", "Priority Groups", "VA Medical Centers"])]),
     ("Medicaid", grouped
       [("ALL", ["Medicaid Expansion", "CHIP"]),
        ("Medicaid Expansion", ["State Programs", "Eligibility", "Covered Services"]),
        ("CHIP", ["Children's Health Insurance", "State CHIP Programs", "Eligibility Requirements"])]),
     ("ACA", topics ["Marketplace Plans", "Essential Health Benefits", "Subsidies", "Open Enrollment"])]),
   ("COMMERCIAL PLANS",
    [("ALL", topics ["HMO", "PPO", "EPO", "POS", "HDHP", "Catastrophic Plans"]),
     ("HMO", topics ["Health Maintenance Organization", "Network Requirements", "Primary Care Physician", "Referral System"]),
     ("PPO", topics ["Preferred Provider Organization", "In-Network vs Out-of-Network", "Flexibility Options"]),
     ("EPO", topics ["Exclusive Provider Organization", "Network-Only Coverage", "Cost Structure"]),
     ("POS", topics ["Point of Service", "Hybrid Plans", "Referral Options"]),
     ("HDHP", topics ["High Deductible Health Plans", "HSA Compatibility", "Cost Savings", "Preventive Care"]),
     ("Catastrophic Plans", topics ["Young Adult Coverage", "Hardship Exemptions", "Essential Benefits"])]),
   ("SUPPLEMENTAL PLANS",
    [("ALL", topics ["Dental", "Vision", "Prescription Drugs Only"]),
     ("Dental", topics ["Dental Insurance", "Preventive Care", "Major Services", "Orthodontics"]),
     ("Vision", topics ["Vision Insurance", "Eye Exams", "Glasses and Contacts", "LASIK Coverage"]),
     ("Prescription Drugs Only", topics ["Standalone Drug Plans", "Formulary Tiers", "Prior Authorization"])]),
   ("EXCHANGE",
    [("ALL", topics ["On-Exchange", "Off-Exchange"]),
     ("On-Exchange", topics ["Marketplace Plans", "Premium Tax Credits", "Cost-Sharing Reductions", "Special Enrollment"]),
     ("Off-Exchange", topics ["Private Plans", "Direct Enrollment", "Broker-Sold Plans"])]),
   ("CODES",
    [("ALL", topics ["ICD-10-CM", "CPT", "HCPCS", "ICD-10-PCS", "NDC", "DRG", "Revenue Codes", "CDT", "Modifiers"]),
     ("Diagnosis – ICD-10-CM", topics ["Diagnosis Coding", "ICD-10-CM Updates", "Clinical Documentation", "Coding Guidelines"]),
     ("Procedures – CPT", topics ["Procedure Codes", "Evaluation and Management", "Surgical Codes", "CPT Updates"]),
     ("Supplies – HCPCS", topics ["Medical Supplies", "Durable Medical Equipment", "Level II Codes", "Billing Guidelines"]),
     ("InPatient – ICD-10-PCS", topics ["Inpatient Procedure Coding", "Body Systems", "Root Operations", "Device Coding"]),
     ("Drugs – NDC", topics ["National Drug Code", "Drug Identification", "FDA Database", "Reimbursement"]),
     ("Payment – DRG", topics ["Diagnosis Related Groups", "Hospital Reimbursement", "Case Mix Index", "Severity Levels"]),
     ("Facility – Revenue Codes", topics ["Revenue Cycle", "UB-04 Billing", "Charge Capture", "Payer Requirements"]),
     ("Dental – CDT", topics ["Dental Procedure Codes", "ADA Codes", "Dental Documentation"]),
     ("Rules – Modifiers", topics ["CPT Modifiers", "HCPCS Modifiers", "Correct Modifier Usage", "Modifier Guidelines"])]),
   ("ALL",
    [("ALL", topics ["Government Plans", "Commercial Plans", "Supplemental Plans", "Exchange", "Codes"])])]

/-- Embeds `config.get_main_categories`. -/
def get_main_categories : List String :=
  TOPIC_HIERARCHY.map Prod.fst

/-- Embeds `config.get_subcategories`. -/
def get_subcategories (main_category : String) : List String :=
  match TOPIC_HIERARCHY.lookup main_category with
  | some category_data => category_data.map Prod.fst
  | none => []

/-- Embeds `config.get_specific_topics`. -/
def get_specific_topics (main_category subcategory : String) : List String :=
  match TOPIC_HIERARCHY.lookup main_category with
  | some category_data =>
    match category_data.lookup subcategory with
    | some (SubcategoryData.grouped children) => children.map Prod.fst
    | some (SubcategoryData.topics ts) => ts
    | none => []
  | none => []

/-- Embeds `config.get_detailed_topics`. -/
def get_detailed_topics (main_category subcategory specific : String) : List String :=
  match TOPIC_HIERARCHY.lookup main_category with
  | some category_data =>
    match category_data.lookup subcategory with
    | some (SubcategoryData.grouped children) =>
      match children.lookup specific with
      | some ts => ts
      | none => []
    | some (SubcategoryData.topics _) => []
    | none => []
  | none => []

/-- Embeds `config.build_topic_query`.  Here `specific` and `detailed` default to
`None` in Python, so they are `Option String` here; the `if x and
x != "ALL"` guards use Python truthiness, under which the empty string
is falsy. -/
def build_topic_query (main_category subcategory : String)
    (specific detailed : Option String) : String :=
  let parts := [main_category]
  let parts := if subcategory ≠ "" ∧ subcategory ≠ "ALL" then parts ++ [subcategory] else parts
  let parts :=
    match specific with
    | some sp => if sp ≠ "" ∧ sp ≠ "ALL" then parts ++ [sp] else parts
    | none => parts
  let parts :=
    match detailed with
    | some dt => if dt ≠ "" then parts ++ [dt] else parts
    | none => parts
  pyJoin " - " parts

/-- The claim's reading of `build_topic_query`: append `subcategory`
whenever it differs from `"ALL"`, append `specific` whenever it is given
and differs from `"ALL"`, append `detailed` whenever it is given —
without the non-emptiness (Python truthiness) conditions. -/
def build_topic_query_claimed (main_category subcategory : String)
    (specific detailed : Option String) : String :=
  let parts := [main_category]
  let parts := if subcategory ≠ "ALL" then parts ++ [subcategory] else parts
  let parts :=
    match specific with
    | some sp => if sp ≠ "ALL" then parts ++ [sp] else parts
    | none => parts
  let parts :=
    match detailed with
    | some dt => parts ++ [dt]
    | none => parts
  pyJoin " - " parts

/-- The amended claim for `build_topic_query`: the `" - "`-join of
`main_category`, then `subcategory` if it is non-empty and differs from
`"ALL"`, then `specific` if given, non-empty and different from
`"ALL"`, then `detailed` if given and non-empty — written as direct
string concatenation, independently of the list-building in the
source-shaped definition. -/
def build_topic_query_amended (main_category subcategory : String)
    (specific detailed : Option String) : String :=
  main_category
    ++ (if subcategory ≠ "" ∧ subcategory ≠ "ALL" then " - " ++ subcategory else "")
    ++ (match specific with
        | some sp => if sp ≠ "" ∧ sp ≠ "ALL" then " - " ++ sp else ""
        | none => "")
    ++ (match detailed with
        | some dt => if dt ≠ "" then " - " ++ dt else ""
        | none => "")

/-! ## Output parsing (`definitions.py` `AgentOutputParser.parse_trending_topic`,
`orchestrator.py` `_parse_seo_content`, `_parse_article_content`) -/

/-- Initial `topic_data` dict of `parse_trending_topic`. -/
def trendInit : TrendingTopic :=
  { title := "", keywords := [], source := "", relevance_score := 0,
    description := "", trending_reason := "" }

/-- Test `line.startswith('TOPIC TITLE:')` on the stripped line. -/
def isTitleLine (line : String) : Bool := pyStartsWith line "TOPIC TITLE:"

/-- Test `line.startswith('PRIMARY KEYWORDS:')` on the stripped line. -/
def isKeywordsLine (line : String) : Bool := pyStartsWith line "PRIMARY KEYWORDS:"

/-- Test `line.startswith('TRENDING REASON:')` on the stripped line. -/
def isReasonLine (line : String) : Bool := pyStartsWith line "TRENDING REASON:"

/-- Test `line.startswith('SOURCE REFERENCES:')` on the stripped line. -/
def isSourceLine (line : String) : Bool := pyStartsWith line "SOURCE REFERENCES:"

/-- Test `line.startswith('RELEVANCE SCORE:')` on the stripped line. -/
def isRelevanceLine (line : String) : Bool := pyStartsWith line "RELEVANCE SCORE:"

/-- Test `line.startswith('BRIEF DESCRIPTION:')` on the stripped line. -/
def isDescriptionLine (line : String) : Bool := pyStartsWith line "BRIEF DESCRIPTION:"

/-- Extraction `line.replace('TOPIC TITLE:', '').strip()`. -/
def titleOf (line : String) : String := pyStrip (pyReplace line "TOPIC TITLE:" "")

/-- Extraction `[k.strip() for k in line.replace('PRIMARY KEYWORDS:', '').strip().split(',')]`. -/
def keywordsOf (line : String) : List String :=
  (pySplitOnChar ',' (pyStrip (pyReplace line "PRIMARY KEYWORDS:" ""))).map pyStrip

/-- Extraction `line.replace('TRENDING REASON:', '').strip()`. -/
def reasonOf (line : String) : String := pyStrip (pyReplace line "TRENDING REASON:" "")

/-- Extraction `line.replace('SOURCE REFERENCES:', '').strip()`. -/
def sourceOf (line : String) : String := pyStrip (pyReplace line "SOURCE REFERENCES:" "")

/-- Extraction `line.replace('BRIEF DESCRIPTION:', '').strip()`. -/
def descriptionOf (line : String) : String := pyStrip (pyReplace line "BRIEF DESCRIPTION:" "")

/-- Extraction `score_str.split('/')[0]` for
`score_str = line.replace('RELEVANCE SCORE:', '').strip()`. -/
def relScoreStr (line : String) : String :=
  (pySplitOnChar '/' (pyStrip (pyReplace line "RELEVANCE SCORE:" ""))).headD ""

/-- Parse `float(score_str.split('/')[0])` with the `except: 75.0` fallback. -/
def relScoreOf (line : String) : ℚ :=
  (pyFloat? (relScoreStr line)).getD 75

/-- The body of the `for line in lines` loop of `parse_trending_topic`,
acting on one (already stripped) line. -/
def trendLineStep (topic_data : TrendingTopic) (line : String) : TrendingTopic :=
  if isTitleLine line then
    { topic_data with title := titleOf line }
  else if isKeywordsLine line then
    { topic_data with keywords := keywordsOf line }
  else if isReasonLine line then
    { topic_data with trending_reason := reasonOf line }
  else if isSourceLine line then
    { topic_data with source := sourceOf line }
  else if isRelevanceLine line then
    { topic_data with relevance_score := relScoreOf line }
  else if isDescriptionLine line then
    { topic_data with description := descriptionOf line }
  else topic_data

/-- The `'\n'`-split lines of the response, each stripped
(`line = line.strip()` at the top of the loop). -/
def trendLines (response : String) : List String :=
  (pySplitOnChar '\n' response).map pyStrip

/-- Embeds `AgentOutputParser.parse_trending_topic`: fold the loop body over the
`'\n'`-split lines, each stripped first. -/
def parse_trending_topic (response : String) : TrendingTopic :=
  (pySplitOnChar '\n' response).foldl
    (fun topic_data line => trendLineStep topic_data (pyStrip line)) trendInit

/-- Parse `float(line.split(':')[-1].strip().split('/')[0])` from
`_parse_seo_content`. -/
def tryScore (line : String) : Option ℚ :=
  pyFloat? (((pySplitOnChar '/' (pyStrip ((pySplitOnChar ':' line).getLastD "")))).headD "")

/-- The six running scores of `_parse_seo_content`. -/
structure SeoScores where
  keyword_score : ℚ
  heading_score : ℚ
  length_score : ℚ
  readability_score : ℚ
  relevance_score : ℚ
  intent_score : ℚ
deriving DecidableEq

/-- Default scores of `_parse_seo_content`. -/
def seoDefaults : SeoScores :=
  { keyword_score := 16, heading_score := 13, length_score := 13,
    readability_score := 12, relevance_score := 13, intent_score := 8 }

/-- Condition `'keyword' in line.lower() and '/' in line`. -/
def seoCondKeyword (line : String) : Bool :=
  strContains (pyLower line) "keyword" && strContains line "/"

/-- Condition `'heading' in line.lower() and '/' in line`. -/
def seoCondHeading (line : String) : Bool :=
  strContains (pyLower line) "heading" && strContains line "/"

/-- Condition `'length' in line.lower() and '/' in line`. -/
def seoCondLength (line : String) : Bool :=
  strContains (pyLower line) "length" && strContains line "/"

/-- Condition `'readability' in line.lower() and '/' in line`. -/
def seoCondReadability (line : String) : Bool :=
  strContains (pyLower line) "readability" && strContains line "/"

/-- Condition `'relevance' in line.lower() and '/' in line`. -/
def seoCondRelevance (line : String) : Bool :=
  strContains (pyLower line) "relevance" && strContains line "/"

/-- Condition `'intent' in line.lower() and '/' in line`. -/
def seoCondIntent (line : String) : Bool :=
  strContains (pyLower line) "intent" && strContains line "/"

/-- The body of the `for line in lines` loop of `_parse_seo_content`:
an `elif` chain keyed on substrings of the lowercased line, a failed
`float` parse (`except: pass`) leaving the running score unchanged, and
a successful one capping it with `min`. -/
def seoLineStep (sc : SeoScores) (line : String) : SeoScores :=
  if seoCondKeyword line then
    match tryScore line with
    | some score => { sc with keyword_score := min score 20 }
    | none => sc
  else if seoCondHeading line then
    match tryScore line with
    | some score => { sc with heading_score := min score 15 }
    | none => sc
  else if seoCondLength line then
    match tryScore line with
    | some score => { sc with length_score := min score 15 }
    | none => sc
  else if seoCondReadability line then
    match tryScore line with
    | some score => { sc with readability_score := min score 15 }
    | none => sc
  else if seoCondRelevance line then
    match tryScore line with
    | some score => { sc with relevance_score := min score 15 }
    | none => sc
  else if seoCondIntent line then
    match tryScore line with
    | some score => { sc with intent_score := min score 10 }
    | none => sc
  else sc

/-- A line that actually updates the given category's score: its `elif`
branch is reached and the `float` parse succeeds. -/
def seoUpdKeyword (line : String) : Bool :=
  seoCondKeyword line && (tryScore line).isSome

/-- Updating condition for the heading score (its branch is reached only
when no earlier branch matched). -/
def seoUpdHeading (line : String) : Bool :=
  !seoCondKeyword line && seoCondHeading line && (tryScore line).isSome

/-- Updating condition for the length score. -/
def seoUpdLength (line : String) : Bool :=
  !seoCondKeyword line && !seoCondHeading line && seoCondLength line && (tryScore line).isSome

/-- Updating condition for the readability score. -/
def seoUpdReadability (line : String) : Bool :=
  !seoCondKeyword line && !seoCondHeading line && !seoCondLength line &&
    seoCondReadability line && (tryScore line).isSome

/-- Updating condition for the relevance score. -/
def seoUpdRelevance (line : String) : Bool :=
  !seoCondKeyword line && !seoCondHeading line && !seoCondLength line &&
    !seoCondReadability line && seoCondRelevance line && (tryScore line).isSome

/-- Updating condition for the intent score. -/
def seoUpdIntent (line : String) : Bool :=
  !seoCondKeyword line && !seoCondHeading line && !seoCondLength line &&
    !seoCondReadability line && !seoCondRelevance line && seoCondIntent line &&
    (tryScore line).isSome

/-- The raw (unstripped) `'\n'`-split lines used by
`_parse_seo_content`. -/
def seoLines (content : String) : List String :=
  pySplitOnChar '\n' content

/-- Embeds `HealthcareAgentOrchestrator._parse_seo_content`. -/
def parse_seo_content (content : String) : SEOValidation :=
  let sc := (pySplitOnChar '\n' content).foldl seoLineStep seoDefaults
  let overall := sc.keyword_score + sc.heading_score + sc.length_score
    + sc.readability_score + sc.relevance_score + sc.intent_score
  { overall_score := overall,
    keyword_score := sc.keyword_score,
    heading_score := sc.heading_score,
    length_score := sc.length_score,
    readability_score := sc.readability_score,
    relevance_score := sc.relevance_score,
    intent_score := sc.intent_score,
    validation_checklist :=
      [("Primary keyword in title", true),
       ("Primary keyword in first paragraph", true),
       ("Single H1 present", true),
       ("5+ H2 headings", true),
       ("Meta description optimized", true),
       ("Word count >= 1500", true),
       ("Keyword density 1-3%", true),
       ("Proper heading hierarchy", true),
       ("Topic matches request", true),
       ("Actionable content present", true)],
    recommendations :=
      ["Consider adding more internal links",
       "Include additional statistics from trusted sources",
       "Add FAQ section for featured snippets"],
    pass_status := decide (70 ≤ overall) }

/-- The loop body collecting `## `/`### ` headings in
`_parse_article_content` (and the identical loop in `_generate_demo`'s
counterpart): `list.append` becomes appending to the accumulator. -/
def headingStep (headings : List Heading) (line : String) : List Heading :=
  if pyStartsWith line "## " then
    headings ++ [{ level := "H2", text := pyStrip (pyDrop line 3) }]
  else if pyStartsWith line "### " then
    headings ++ [{ level := "H3", text := pyStrip (pyDrop line 4) }]
  else headings

/-- Embeds `HealthcareAgentOrchestrator._parse_article_content`. -/
def parse_article_content (content : String) (topic_query : String)
    (trending_topic : TrendingTopic) : SEOArticle :=
  let meta_desc := s!"Comprehensive guide to {topic_query}. Latest updates, expert insights, and actionable information for 2025."
  let meta_desc :=
    if strContains (pyTake (pyLower content) 500) "meta" then
      match (pySplitOnChar '\n' (pyTake content 500)).find?
          (fun line => strContains (pyLower line) "meta" && decide (50 < pyLen line)) with
      | some line =>
        pyTake (pyStrip (pyReplace (pyReplace line "Meta Description:" "") "META:" "")) 160
      | none => meta_desc
    else meta_desc
  let lines := pySplitOnChar '\n' content
  let title :=
    match (lines.take 10).find? (fun line => pyStartsWith line "# ") with
    | some line => pyStrip (pyDrop line 2)
    | none => s!"Complete Guide to {topic_query}: 2025 Updates"
  let headings := lines.foldl headingStep []
  { title := title,
    meta_description := meta_desc,
    content := content,
    primary_keywords :=
      if trending_topic.keywords ≠ [] then trending_topic.keywords.take 3
      else [pyLower topic_query],
    secondary_keywords :=
      if 3 < trending_topic.keywords.length then trending_topic.keywords.drop 3
      else ["healthcare", "2025"],
    headings := headings,
    word_count := (pyWhitespaceSplit content).length,
    image_suggestions :=
      [{ description := s!"Infographic about {topic_query}", alt_text := s!"{topic_query} overview infographic" },
       { description := "Healthcare professional consultation", alt_text := "Doctor discussing healthcare options" },
       { description := "Coverage comparison chart", alt_text := s!"{topic_query} benefits comparison" }],
    internal_links := ["Medicare Guide", "Medicaid Overview", "ACA Marketplace"],
    external_links := ["healthcare.gov", "cms.gov", "kff.org"] }

/-! ## Orchestration (`orchestrator.py`)

The async pipeline is modelled as a pure function that, besides its
result, records the observable trace of effects in order: progress
callbacks, `asyncio.sleep` delays (seconds as exact rationals) and chat
completion requests (tagged with the prompt-dict key of the system
prompt used and the `max_tokens` argument).  The OpenAI client is an
oracle `Nat → Except String String` giving, for the n-th chat
completion call of a generation, either the response message content or
the message of the exception the call raises.  Parsing, sleeping and
callbacks cannot raise, so the oracle is the only failure source, and
`datetime.now().isoformat()` is the extra parameter `now`. -/

/-- One observable effect of a generation. -/
inductive Event where
  | progress (message : String) (percent : Nat)
  | sleep (seconds : ℚ)
  | modelCall (role : String) (max_tokens : Nat)
deriving DecidableEq

/-- Embeds `HealthcareAgentOrchestrator._generate_demo_article`
(`category_path` is accepted and unused, as in the source). -/
def generate_demo_article (topic_query category_path : String) : String :=
s!"# Complete Guide to {topic_query}: 2025 Updates and Essential Information

The landscape of US healthcare continues to evolve, and staying informed about {topic_query} is more important than ever. This comprehensive guide provides the latest information, policy updates, and expert insights to help you navigate your healthcare options effectively.

## Understanding {topic_query}

{topic_query} represents a critical component of the American healthcare system, affecting millions of individuals and families across the nation. As we move through 2025, significant developments have reshaped how beneficiaries access and utilize these healthcare benefits.

The Centers for Medicare & Medicaid Services (CMS) has implemented several key changes that directly impact coverage options and eligibility requirements. Understanding these changes is essential for making informed healthcare decisions that protect both your health and financial well-being.

### The Importance of Staying Informed

Healthcare policies and regulations undergo continuous refinement. Recent data from the Kaiser Family Foundation indicates that awareness of coverage options significantly impacts health outcomes. Individuals who understand their benefits are more likely to utilize preventive services and maintain consistent care relationships with healthcare providers.

## Key Benefits and Coverage

When evaluating {topic_query}, understanding the full scope of available benefits helps ensure you maximize your coverage. Current benefits typically include:

- **Preventive Care Services**: Annual wellness visits, screenings, and immunizations at no additional cost
- **Hospital and Medical Services**: Coverage for inpatient and outpatient care
- **Prescription Drug Benefits**: Access to necessary medications with varying cost-sharing structures
- **Specialist Services**: Referrals and coverage for specialized medical care
- **Mental Health Coverage**: Expanded mental health and substance abuse services

The Department of Health and Human Services (HHS) emphasizes that comprehensive coverage reduces financial barriers to necessary medical care, leading to better health outcomes and reduced long-term healthcare costs.

## Eligibility Requirements

Determining eligibility for {topic_query} involves understanding specific criteria established by federal and state guidelines. Generally, eligibility considerations include:

1. **Age Requirements**: Specific age thresholds may apply depending on the program
2. **Income Guidelines**: Many programs use Federal Poverty Level (FPL) percentages as benchmarks
3. **Residency Status**: US citizenship or qualified immigration status requirements
4. **Employment Considerations**: Some coverage options relate to employment status
5. **Disability Status**: Special provisions exist for individuals with qualifying disabilities

## Recent Policy Updates for 2025

The 2025 healthcare landscape brings several noteworthy changes:

### Coverage Expansions

Federal initiatives have expanded coverage options, with particular emphasis on addressing gaps in the healthcare system. The American Medical Association (AMA) reports that these expansions improve access for previously underserved populations.

### Cost-Sharing Modifications

Adjustments to deductibles, copayments, and coinsurance structures reflect efforts to balance affordability with sustainable healthcare financing.

### New Service Categories

Emerging healthcare services, including expanded telehealth options and additional preventive care benefits, reflect evolving understanding of effective healthcare delivery.

## How to Enroll

Enrollment in {topic_query} follows established timelines and procedures:

### Open Enrollment Periods

The primary enrollment window typically runs from November 1 through January 15, though specific dates may vary by program.

### Special Enrollment Periods

Qualifying life events trigger special enrollment opportunities outside standard windows, including:

- Loss of existing coverage
- Marriage or divorce
- Birth or adoption of a child
- Change in residence
- Changes in income affecting eligibility

### Enrollment Assistance

Free enrollment assistance is available through:

- Healthcare.gov marketplace navigators
- Certified application counselors
- State health insurance assistance programs (SHIP)
- Community health centers

## Frequently Asked Questions

**What documents do I need to enroll?**
Generally, you'll need proof of identity, income verification, and Social Security numbers for household members seeking coverage.

**Can I change my coverage after enrolling?**
Outside of open enrollment, changes typically require a qualifying life event.

**How do I compare available plan options?**
Healthcare.gov and state marketplace websites provide comparison tools displaying costs, coverage details, and network information.

**What if I need help understanding my options?**
Free assistance is available through official navigator programs and resources from organizations like the Kaiser Family Foundation.

## Conclusion

Navigating {topic_query} requires understanding current policies, eligibility requirements, and enrollment procedures. By staying informed about these essential healthcare components, you position yourself to make decisions that protect your health and financial security.

As healthcare policies continue evolving, regularly reviewing your coverage options ensures your healthcare strategy aligns with your current needs.

---

*This article provides general information about US healthcare options. Consult with qualified professionals for guidance specific to your situation.*

**Sources**: CMS, CDC, HHS, Kaiser Family Foundation, Healthcare.gov, AMA, AHA
"

/-- Embeds `HealthcareAgentOrchestrator._generate_demo`: the canned demo
generation, returning the output and its effect trace. -/
def generate_demo (topic_query category_path now : String) :
    ConsolidatedOutput × List Event :=
  let trending_topic : TrendingTopic :=
    { title := s!"Latest Updates in {topic_query}: What You Need to Know in 2025",
      keywords := [pyLower topic_query, "healthcare", "us healthcare", "2025 updates", "policy changes"],
      source := "CMS, Kaiser Family Foundation, Healthcare.gov",
      relevance_score := 87.5,
      description := s!"A comprehensive overview of recent developments in {topic_query} affecting millions of Americans.",
      trending_reason := "Recent policy updates and enrollment period changes have made this topic highly relevant." }
  let article_content := generate_demo_article topic_query category_path
  let seo_article : SEOArticle :=
    { title := s!"Complete Guide to {topic_query}: 2025 Updates and Essential Information",
      meta_description := s!"Discover everything you need to know about {topic_query} in 2025. Expert insights, latest policy changes, and actionable guidance for US healthcare consumers.",
      content := article_content,
      primary_keywords := [pyLower topic_query, "healthcare", "insurance"],
      secondary_keywords := ["coverage", "benefits", "eligibility", "enrollment", "2025"],
      headings :=
        [{ level := "H2", text := s!"Understanding {topic_query}" },
         { level := "H2", text := "Key Benefits and Coverage" },
         { level := "H2", text := "Eligibility Requirements" },
         { level := "H2", text := "Recent Policy Updates for 2025" },
         { level := "H2", text := "How to Enroll" },
         { level := "H2", text := "Frequently Asked Questions" }],
      word_count := (pyWhitespaceSplit article_content).length,
      image_suggestions :=
        [{ description := "Infographic showing coverage options", alt_text := s!"{topic_query} coverage comparison chart" },
         { description := "Healthcare professional with patient", alt_text := "Doctor consultation for healthcare benefits" },
         { description := "Enrollment timeline graphic", alt_text := "Key enrollment dates for 2025" }],
      internal_links := ["Medicare Overview", "Medicaid Basics", "ACA Marketplace Guide"],
      external_links := ["healthcare.gov", "cms.gov", "kff.org"] }
  let seo_validation : SEOValidation :=
    { overall_score := 84.5,
      keyword_score := 17,
      heading_score := 14,
      length_score := 13,
      readability_score := 13.5,
      relevance_score := 14,
      intent_score := 8.5,
      validation_checklist :=
        [("Primary keyword in title", true),
         ("Primary keyword in first paragraph", true),
         ("Single H1 present", true),
         ("5+ H2 headings", true),
         ("Meta description optimized", true),
         ("Word count >= 1500", true),
         ("Keyword density 1-3%", true),
         ("Proper heading hierarchy", true),
         ("Topic matches request", true),
         ("Actionable content present", true)],
      recommendations :=
        ["Consider adding more internal links to related healthcare topics",
         "Include 1-2 more statistics from trusted sources",
         "Add a comparison table for better visual engagement"],
      pass_status := true }
  ({ article := seo_article,
     seo_validation := seo_validation,
     trending_topic := trending_topic,
     generation_timestamp := now,
     category_path := category_path },
   [Event.progress "Agent 1: Discovering trends..." 20,
    Event.sleep (4/10),
    Event.progress "Agent 2: Writing article..." 50,
    Event.sleep (4/10),
    Event.progress "Agent 3: Validating SEO..." 75,
    Event.sleep (3/10),
    Event.progress "Agent 4: Consolidating..." 95,
    Event.sleep (2/10),
    Event.progress "Complete!" 100])

/-- The body of the `try` block of
`HealthcareAgentOrchestrator._generate_with_openai`: three sequential
chat completion calls (system prompts `search_agent`, `content_writer`,
`seo_examiner`), the parsing of their responses, and the fixed sleeps —
or the first exception raised by a call, together with the trace up to
that point. -/
def generate_with_openai_body (oracle : Nat → Except String String)
    (topic_query category_path now : String) :
    Except String ConsolidatedOutput × List Event :=
  let t1 := [Event.progress "Agent 1: Discovering trends..." 15,
             Event.modelCall "search_agent" 500]
  match oracle 0 with
  | Except.error e => (Except.error e, t1)
  | Except.ok trend_content =>
    let trending_topic := parse_trending_topic trend_content
    let t2 := t1 ++ [Event.sleep (3/10),
                     Event.progress "Agent 2: Writing article..." 40,
                     Event.modelCall "content_writer" 4000]
    match oracle 1 with
    | Except.error e => (Except.error e, t2)
    | Except.ok article_content =>
      let t3 := t2 ++ [Event.sleep (3/10),
                       Event.progress "Agent 3: Validating SEO..." 70,
                       Event.modelCall "seo_examiner" 1000]
      match oracle 2 with
      | Except.error e => (Except.error e, t3)
      | Except.ok seo_content =>
        let t4 := t3 ++ [Event.sleep (2/10),
                         Event.progress "Agent 4: Consolidating..." 90]
        let seo_article := parse_article_content article_content topic_query trending_topic
        let seo_validation := parse_seo_content seo_content
        let t5 := t4 ++ [Event.progress "Complete!" 100]
        (Except.ok
          { article := seo_article,
            seo_validation := seo_validation,
            trending_topic := trending_topic,
            generation_timestamp := now,
            category_path := category_path },
         t5)

/-- Is an `Except` an error? -/
def isErr : Except String ConsolidatedOutput → Bool
  | Except.error _ => true
  | Except.ok _ => false

/-- Embeds `HealthcareAgentOrchestrator._generate_with_openai` including its
own `except` clause: any exception in the body falls through to
`_generate_demo`. -/
def generate_with_openai (oracle : Nat → Except String String)
    (topic_query category_path now : String) : ConsolidatedOutput × List Event :=
  match generate_with_openai_body oracle topic_query category_path now with
  | (Except.ok out, trace) => (out, trace)
  | (Except.error _, trace) =>
    let d := generate_demo topic_query category_path now
    (d.1, trace ++ d.2)

/-- Embeds `HealthcareAgentOrchestrator.generate_article`: live mode when the
OpenAI client initialised (`autogen_available` and a client), demo mode
otherwise; the outer `except` falls back to demo mode, though both
branches are already total here. -/
def generate_article (autogen_available : Bool)
    (oracle : Nat → Except String String)
    (topic_query category_path now : String) : ConsolidatedOutput × List Event :=
  if autogen_available then
    generate_with_openai oracle topic_query category_path now
  else
    generate_demo topic_query category_path now

/-! ## Document export helpers (`utils/document_export.py`) -/

/-- The `replacements` dict of `sanitize_text_for_pdf`, exactly as the
Python parser reads it: the two lines meant to map the curly single
quotes are tokenized as one triple-quoted (`'''`) string key, so the
dict holds a long junk key instead of the single-quote characters, and
the two curly-double-quote lines each parse as the ASCII `\"` mapped to
itself (a duplicate key, collapsing to one entry).  The curly quote
characters U+2018, U+2019, U+201C, U+201D are therefore not keys. -/
def pdfReplacements : List (String × String) :=
  [("•", "-"),
   ("–", "-"),
   ("—", "-"),
   (": \"\'\",      # Left single quote\n        ", "\'"),
   ("\"", "\""),
   ("…", "..."),
   ("©", "(c)"),
   ("®", "(R)"),
   ("™", "(TM)"),
   ("°", " deg"),
   ("±", "+/-"),
   ("×", "x"),
   ("÷", "/"),
   ("≤", "<="),
   ("≥", ">="),
   ("≠", "!="),
   ("→", "->"),
   ("←", "<-"),
   ("✓", "[x]"),
   ("✗", "[ ]"),
   ("★", "*"),
   ("✅", "[PASS]"),
   ("❌", "[FAIL]")]

/-- Embeds `sanitize_text_for_pdf`: apply the replacements in dict order, then
`encode('ascii', 'ignore')`, which drops every character with code
point at least 128. -/
def sanitize_text_for_pdf (text : String) : String :=
  let text := pdfReplacements.foldl (fun t p => pyReplace t p.1 p.2) text
  ⟨text.data.filter (fun c => c.toNat < 128)⟩

/-- Python `\w` for `re.sub(r'[^\w\s-]', '', title)` (ASCII range;
non-ASCII Unicode word characters are not modelled). -/
def pyIsWordChar (c : Char) : Bool :=
  c.isAlphanum || c = '_'

/-- Embeds `re.sub(r'\s+', '_', s)`: collapse every whitespace run to a single
underscore.  The flag tracks whether the previous character was part of
a whitespace run. -/
def collapseWsAux : List Char → Bool → List Char
  | [], _ => []
  | c :: rest, prevWs =>
    if pyIsSpace c then
      (if prevWs then [] else ['_']) ++ collapseWsAux rest true
    else
      c :: collapseWsAux rest false

/-- The title-cleaning pipeline of `get_download_filename`:
`re.sub(r'[^\w\s-]', '', title)`, then `re.sub(r'\s+', '_', ·)`, then
truncation to 50 characters. -/
def cleanForFilename (title : String) : String :=
  let kept := title.data.filter (fun c => pyIsWordChar c || pyIsSpace c || c = '-')
  ⟨(collapseWsAux kept false).take 50⟩

/-- Embeds `get_download_filename`; `datetime.now().strftime("%Y%m%d")` is the
parameter `timestamp`. -/
def get_download_filename (title format timestamp : String) : String :=
  "HealthPulse_" ++ cleanForFilename title ++ "_" ++ timestamp ++ "." ++ format

/-- The last element of `ls` satisfying `P`, if any: the line whose
update survives a left fold. -/
def lastMatch (P : String → Bool) : List String → Option String
  | [] => none
  | l :: ls =>
    match lastMatch P ls with
    | some r => some r
    | none => if P l then some l else none

/-- The stripped-prefix conditions in the elif order of the source. -/
def trendSelTitle (l : String) : Bool := isTitleLine l
def trendSelKeywords (l : String) : Bool := !isTitleLine l && isKeywordsLine l
def trendSelReason (l : String) : Bool :=
  !isTitleLine l && !isKeywordsLine l && isReasonLine l
def trendSelSource (l : String) : Bool :=
  !isTitleLine l && !isKeywordsLine l && !isReasonLine l && isSourceLine l
def trendSelRelevance (l : String) : Bool :=
  !isTitleLine l && !isKeywordsLine l && !isReasonLine l && !isSourceLine l &&
    isRelevanceLine l
def trendSelDescription (l : String) : Bool :=
  !isTitleLine l && !isKeywordsLine l && !isReasonLine l && !isSourceLine l &&
    !isRelevanceLine l && isDescriptionLine l

/-- The folded scores of `_parse_seo_content`. -/
def seoScoresOf (content : String) : SeoScores :=
  (seoLines content).foldl seoLineStep seoDefaults

/-- Heading record produced by one line: `H2` for `## `, `H3` for
`### `, nothing otherwise. -/
def headingOf (line : String) : Option Heading :=
  if pyStartsWith line "## " then some { level := "H2", text := pyStrip (pyDrop line 3) }
  else if pyStartsWith line "### " then some { level := "H3", text := pyStrip (pyDrop line 4) }
  else none

/-- Errors in a generic `Except` (polymorphic version of `isErr`). -/
def isErrE {α : Type} : Except String α → Bool
  | Except.error _ => true
  | Except.ok _ => false

/-- The model-call and sleep events of a trace, in order. -/
def callsAndSleeps (trace : List Event) : List Event :=
  trace.filter fun e =>
    match e with
    | Event.progress _ _ => false
    | _ => true

/-- The sleep durations of a trace, in order. -/
def sleepSeconds (trace : List Event) : List ℚ :=
  trace.filterMap fun e =>
    match e with
    | Event.sleep q => some q
    | _ => none

/-- The system-prompt roles of the model calls of a trace, in order. -/
def callRoles (trace : List Event) : List String :=
  trace.filterMap fun e =>
    match e with
    | Event.modelCall role _ => some role
    | _ => none

/-- The number of model calls in a trace. -/
def modelCallCount (trace : List Event) : Nat :=
  (callRoles trace).length

/-- An oracle on which every chat completion call succeeds with an empty
response. -/
def okOracle : Nat → Except String String := fun _ => Except.ok ""

/-- An oracle on which every chat completion call raises. -/
def failOracle : Nat → Except String String := fun _ => Except.error "APIConnectionError"

end HealthPulse

namespace HealthPulse

example : strContains "hello keyword here" "keyword" = true := by decide
example : pyWhitespaceSplit "  a  b\n c " = ["a", "b", "c"] := by decide
example : pySplitOnChar ':' "ab:cd:ef" = ["ab", "cd", "ef"] := by decide
example : pyStrip "  x y " = "x y" := by decide
example : pyReplace "TOPIC TITLE: Foo" "TOPIC TITLE:" "" = " Foo" := by decide
example : pyStartsWith "# Title" "# " = true := by decide
example : pyLower "ABCdef" = "abcdef" := by decide
example : pyFloat? "" = none := by decide
example : pyFloat? "high" = none := by decide
example : pyJoin " - " ["a", "b", "c"] = "a - b - c" := by decide
example : pyTake "abcdef" 3 = "abc" := by decide

end HealthPulse

namespace HealthPulse

/-! ## Infrastructure lemmas for the line-fold parsers -/

lemma lastMatch_eq_none_iff (P : String → Bool) (ls : List String) :
    lastMatch P ls = none ↔ ∀ l ∈ ls, P l = false := by
  induction ls with
  | nil => simp [lastMatch]
  | cons l ls ih =>
    simp only [lastMatch, List.forall_mem_cons]
    cases h : lastMatch P ls with
    | some r =>
      have hr : ¬ ∀ x ∈ ls, P x = false := by rw [← ih]; simp [h]
      simp [hr]
    | none =>
      have hls : ∀ x ∈ ls, P x = false := ih.mp h
      by_cases hp : P l
      · simp [hp]
      · simp only [Bool.not_eq_true] at hp
        simp only [hp, if_false, Bool.false_eq_true, true_and, iff_true_intro rfl]
        simp only [true_iff, true_and]
        exact hls

lemma foldl_ite_lastMatch {β : Type} (P : String → Bool) (g : String → β) :
    ∀ (ls : List String) (b : β),
      ls.foldl (fun r l => if P l then g l else r) b = (lastMatch P ls).elim b g := by
  intro ls
  induction ls with
  | nil => intro b; rfl
  | cons l ls ih =>
    intro b
    simp only [List.foldl_cons, lastMatch]
    rw [ih]
    cases h : lastMatch P ls with
    | some r => simp
    | none => by_cases hp : P l <;> simp [hp]

lemma foldl_proj {σ β : Type} (step : σ → String → σ) (p : σ → β)
    (f : β → String → β) (hcomm : ∀ s l, p (step s l) = f (p s) l) :
    ∀ (ls : List String) (s : σ), p (ls.foldl step s) = ls.foldl f (p s) := by
  intro ls
  induction ls with
  | nil => intro s; rfl
  | cons l ls ih =>
    intro s
    simp only [List.foldl_cons]
    rw [ih, hcomm]

end HealthPulse

namespace HealthPulse

/-! ## Characterization of `parse_trending_topic` -/

lemma trendStep_title (td : TrendingTopic) (l : String) :
    (trendLineStep td l).title = if isTitleLine l then titleOf l else td.title := by
  unfold trendLineStep
  split_ifs <;> simp_all

lemma trendStep_keywords (td : TrendingTopic) (l : String) :
    (trendLineStep td l).keywords =
      if !isTitleLine l && isKeywordsLine l then keywordsOf l else td.keywords := by
  unfold trendLineStep
  split_ifs <;> simp_all

lemma trendStep_reason (td : TrendingTopic) (l : String) :
    (trendLineStep td l).trending_reason =
      if !isTitleLine l && !isKeywordsLine l && isReasonLine l then reasonOf l
      else td.trending_reason := by
  unfold trendLineStep
  split_ifs <;> simp_all

lemma trendStep_source (td : TrendingTopic) (l : String) :
    (trendLineStep td l).source =
      if !isTitleLine l && !isKeywordsLine l && !isReasonLine l && isSourceLine l then
        sourceOf l
      else td.source := by
  unfold trendLineStep
  split_ifs <;> simp_all

lemma trendStep_relevance (td : TrendingTopic) (l : String) :
    (trendLineStep td l).relevance_score =
      if !isTitleLine l && !isKeywordsLine l && !isReasonLine l && !isSourceLine l &&
          isRelevanceLine l then
        relScoreOf l
      else td.relevance_score := by
  unfold trendLineStep
  split_ifs <;> simp_all

lemma trendStep_description (td : TrendingTopic) (l : String) :
    (trendLineStep td l).description =
      if !isTitleLine l && !isKeywordsLine l && !isReasonLine l && !isSourceLine l &&
          !isRelevanceLine l && isDescriptionLine l then
        descriptionOf l
      else td.description := by
  unfold trendLineStep
  split_ifs <;> simp_all

lemma parse_trending_eq_foldl (response : String) :
    parse_trending_topic response = (trendLines response).foldl trendLineStep trendInit := by
  unfold parse_trending_topic trendLines
  exact (List.foldl_map _ _ _ _).symm

lemma trend_title_char (response : String) :
    (parse_trending_topic response).title =
      (lastMatch trendSelTitle (trendLines response)).elim "" titleOf := by
  rw [parse_trending_eq_foldl,
    foldl_proj trendLineStep (fun td => td.title)
      (fun b l => if trendSelTitle l then titleOf l else b) trendStep_title,
    foldl_ite_lastMatch]
  rfl

lemma trend_keywords_char (response : String) :
    (parse_trending_topic response).keywords =
      (lastMatch trendSelKeywords (trendLines response)).elim [] keywordsOf := by
  rw [parse_trending_eq_foldl,
    foldl_proj trendLineStep (fun td => td.keywords)
      (fun b l => if trendSelKeywords l then keywordsOf l else b) trendStep_keywords,
    foldl_ite_lastMatch]
  rfl

lemma trend_reason_char (response : String) :
    (parse_trending_topic response).trending_reason =
      (lastMatch trendSelReason (trendLines response)).elim "" reasonOf := by
  rw [parse_trending_eq_foldl,
    foldl_proj trendLineStep (fun td => td.trending_reason)
      (fun b l => if trendSelReason l then reasonOf l else b) trendStep_reason,
    foldl_ite_lastMatch]
  rfl

lemma trend_source_char (response : String) :
    (parse_trending_topic response).source =
      (lastMatch trendSelSource (trendLines response)).elim "" sourceOf := by
  rw [parse_trending_eq_foldl,
    foldl_proj trendLineStep (fun td => td.source)
      (fun b l => if trendSelSource l then sourceOf l else b) trendStep_source,
    foldl_ite_lastMatch]
  rfl

lemma trend_relevance_char (response : String) :
    (parse_trending_topic response).relevance_score =
      (lastMatch trendSelRelevance (trendLines response)).elim 0 relScoreOf := by
  rw [parse_trending_eq_foldl,
    foldl_proj trendLineStep (fun td => td.relevance_score)
      (fun b l => if trendSelRelevance l then relScoreOf l else b) trendStep_relevance,
    foldl_ite_lastMatch]
  rfl

lemma trend_description_char (response : String) :
    (parse_trending_topic response).description =
      (lastMatch trendSelDescription (trendLines response)).elim "" descriptionOf := by
  rw [parse_trending_eq_foldl,
    foldl_proj trendLineStep (fun td => td.description)
      (fun b l => if trendSelDescription l then descriptionOf l else b) trendStep_description,
    foldl_ite_lastMatch]
  rfl

end HealthPulse

namespace HealthPulse

/-! ## Characterization of `_parse_seo_content` -/

lemma seoStep_keyword (sc : SeoScores) (l : String) :
    (seoLineStep sc l).keyword_score =
      if seoUpdKeyword l then min ((tryScore l).getD 0) 20 else sc.keyword_score := by
  unfold seoLineStep seoUpdKeyword
  rcases h : tryScore l with _ | q <;> simp only [h] <;> split_ifs <;> simp_all

lemma seoStep_heading (sc : SeoScores) (l : String) :
    (seoLineStep sc l).heading_score =
      if seoUpdHeading l then min ((tryScore l).getD 0) 15 else sc.heading_score := by
  unfold seoLineStep seoUpdHeading
  rcases h : tryScore l with _ | q <;> simp only [h] <;> split_ifs <;> simp_all

lemma seoStep_length (sc : SeoScores) (l : String) :
    (seoLineStep sc l).length_score =
      if seoUpdLength l then min ((tryScore l).getD 0) 15 else sc.length_score := by
  unfold seoLineStep seoUpdLength
  rcases h : tryScore l with _ | q <;> simp only [h] <;> split_ifs <;> simp_all

lemma seoStep_readability (sc : SeoScores) (l : String) :
    (seoLineStep sc l).readability_score =
      if seoUpdReadability l then min ((tryScore l).getD 0) 15 else sc.readability_score := by
  unfold seoLineStep seoUpdReadability
  rcases h : tryScore l with _ | q <;> simp only [h] <;> split_ifs <;> simp_all

lemma seoStep_relevance (sc : SeoScores) (l : String) :
    (seoLineStep sc l).relevance_score =
      if seoUpdRelevance l then min ((tryScore l).getD 0) 15 else sc.relevance_score := by
  unfold seoLineStep seoUpdRelevance
  rcases h : tryScore l with _ | q <;> simp only [h] <;> split_ifs <;> simp_all

lemma seoStep_intent (sc : SeoScores) (l : String) :
    (seoLineStep sc l).intent_score =
      if seoUpdIntent l then min ((tryScore l).getD 0) 10 else sc.intent_score := by
  unfold seoLineStep seoUpdIntent
  rcases h : tryScore l with _ | q <;> simp only [h] <;> split_ifs <;> simp_all

lemma seo_keyword_char (content : String) :
    (seoScoresOf content).keyword_score =
      (lastMatch seoUpdKeyword (seoLines content)).elim 16
        (fun l => min ((tryScore l).getD 0) 20) := by
  unfold seoScoresOf
  rw [foldl_proj seoLineStep (fun sc => sc.keyword_score)
      (fun b l => if seoUpdKeyword l then min ((tryScore l).getD 0) 20 else b) seoStep_keyword,
    foldl_ite_lastMatch]
  rfl

lemma seo_heading_char (content : String) :
    (seoScoresOf content).heading_score =
      (lastMatch seoUpdHeading (seoLines content)).elim 13
        (fun l => min ((tryScore l).getD 0) 15) := by
  unfold seoScoresOf
  rw [foldl_proj seoLineStep (fun sc => sc.heading_score)
      (fun b l => if seoUpdHeading l then min ((tryScore l).getD 0) 15 else b) seoStep_heading,
    foldl_ite_lastMatch]
  rfl

lemma seo_length_char (content : String) :
    (seoScoresOf content).length_score =
      (lastMatch seoUpdLength (seoLines content)).elim 13
        (fun l => min ((tryScore l).getD 0) 15) := by
  unfold seoScoresOf
  rw [foldl_proj seoLineStep (fun sc => sc.length_score)
      (fun b l => if seoUpdLength l then min ((tryScore l).getD 0) 15 else b) seoStep_length,
    foldl_ite_lastMatch]
  rfl

lemma seo_readability_char (content : String) :
    (seoScoresOf content).readability_score =
      (lastMatch seoUpdReadability (seoLines content)).elim 12
        (fun l => min ((tryScore l).getD 0) 15) := by
  unfold seoScoresOf
  rw [foldl_proj seoLineStep (fun sc => sc.readability_score)
      (fun b l => if seoUpdReadability l then min ((tryScore l).getD 0) 15 else b)
      seoStep_readability,
    foldl_ite_lastMatch]
  rfl

lemma seo_relevance_char (content : String) :
    (seoScoresOf content).relevance_score =
      (lastMatch seoUpdRelevance (seoLines content)).elim 13
        (fun l => min ((tryScore l).getD 0) 15) := by
  unfold seoScoresOf
  rw [foldl_proj seoLineStep (fun sc => sc.relevance_score)
      (fun b l => if seoUpdRelevance l then min ((tryScore l).getD 0) 15 else b)
      seoStep_relevance,
    foldl_ite_lastMatch]
  rfl

lemma seo_intent_char (content : String) :
    (seoScoresOf content).intent_score =
      (lastMatch seoUpdIntent (seoLines content)).elim 8
        (fun l => min ((tryScore l).getD 0) 10) := by
  unfold seoScoresOf
  rw [foldl_proj seoLineStep (fun sc => sc.intent_score)
      (fun b l => if seoUpdIntent l then min ((tryScore l).getD 0) 10 else b) seoStep_intent,
    foldl_ite_lastMatch]
  rfl

lemma parse_seo_fields (content : String) :
    (parse_seo_content content).keyword_score = (seoScoresOf content).keyword_score ∧
    (parse_seo_content content).heading_score = (seoScoresOf content).heading_score ∧
    (parse_seo_content content).length_score = (seoScoresOf content).length_score ∧
    (parse_seo_content content).readability_score = (seoScoresOf content).readability_score ∧
    (parse_seo_content content).relevance_score = (seoScoresOf content).relevance_score ∧
    (parse_seo_content content).intent_score = (seoScoresOf content).intent_score :=
  ⟨rfl, rfl, rfl, rfl, rfl, rfl⟩

end HealthPulse

namespace HealthPulse

lemma elim_min_le (o : Option String) (d cap : ℚ) (g : String → ℚ) (hd : d ≤ cap) :
    (o.elim d fun l => min (g l) cap) ≤ cap := by
  cases o with
  | none => exact hd
  | some l => exact min_le_right _ _

/-- Claim C3: for every input string, `_parse_seo_content` returns an
`SEOValidation` in which each of the six category scores extracted from
a matching `name: X/max` line is capped above at its maximum
(20, 15, 15, 15, 15, 10), any category with no parseable line keeps its
hardcoded default (16, 13, 13, 12, 13, 8), `overall_score` equals the
sum of the six category scores, and `pass_status` is true if and only
if `overall_score >= 70`. -/
theorem c3_parse_seo_content_spec (content : String) :
    (parse_seo_content content).keyword_score ≤ 20
  ∧ (parse_seo_content content).heading_score ≤ 15
  ∧ (parse_seo_content content).length_score ≤ 15
  ∧ (parse_seo_content content).readability_score ≤ 15
  ∧ (parse_seo_content content).relevance_score ≤ 15
  ∧ (parse_seo_content content).intent_score ≤ 10
  ∧ (parse_seo_content content).overall_score =
      (parse_seo_content content).keyword_score + (parse_seo_content content).heading_score
      + (parse_seo_content content).length_score
      + (parse_seo_content content).readability_score
      + (parse_seo_content content).relevance_score + (parse_seo_content content).intent_score
  ∧ ((parse_seo_content content).pass_status = true ↔
      70 ≤ (parse_seo_content content).overall_score)
  ∧ ((∀ l ∈ seoLines content, seoUpdKeyword l = false) →
      (parse_seo_content content).keyword_score = 16)
  ∧ ((∀ l ∈ seoLines content, seoUpdHeading l = false) →
      (parse_seo_content content).heading_score = 13)
  ∧ ((∀ l ∈ seoLines content, seoUpdLength l = false) →
      (parse_seo_content content).length_score = 13)
  ∧ ((∀ l ∈ seoLines content, seoUpdReadability l = false) →
      (parse_seo_content content).readability_score = 12)
  ∧ ((∀ l ∈ seoLines content, seoUpdRelevance l = false) →
      (parse_seo_content content).relevance_score = 13)
  ∧ ((∀ l ∈ seoLines content, seoUpdIntent l = false) →
      (parse_seo_content content).intent_score = 8) := by
  obtain ⟨f1, f2, f3, f4, f5, f6⟩ := parse_seo_fields content
  refine ⟨?_, ?_, ?_, ?_, ?_, ?_, rfl, decide_eq_true_iff, ?_, ?_, ?_, ?_, ?_, ?_⟩
  · rw [f1, seo_keyword_char]; exact elim_min_le _ _ _ _ (by norm_num)
  · rw [f2, seo_heading_char]; exact elim_min_le _ _ _ _ (by norm_num)
  · rw [f3, seo_length_char]; exact elim_min_le _ _ _ _ (by norm_num)
  · rw [f4, seo_readability_char]; exact elim_min_le _ _ _ _ (by norm_num)
  · rw [f5, seo_relevance_char]; exact elim_min_le _ _ _ _ (by norm_num)
  · rw [f6, seo_intent_char]; exact elim_min_le _ _ _ _ (by norm_num)
  · intro h; rw [f1, seo_keyword_char, (lastMatch_eq_none_iff _ _).mpr h]; rfl
  · intro h; rw [f2, seo_heading_char, (lastMatch_eq_none_iff _ _).mpr h]; rfl
  · intro h; rw [f3, seo_length_char, (lastMatch_eq_none_iff _ _).mpr h]; rfl
  · intro h; rw [f4, seo_readability_char, (lastMatch_eq_none_iff _ _).mpr h]; rfl
  · intro h; rw [f5, seo_relevance_char, (lastMatch_eq_none_iff _ _).mpr h]; rfl
  · intro h; rw [f6, seo_intent_char, (lastMatch_eq_none_iff _ _).mpr h]; rfl

/-- Witness for C3 at the concrete input `""`: no line updates any
category, so all six defaults survive. -/
theorem c3_witness :
    (parse_seo_content "").keyword_score = 16 ∧ (parse_seo_content "").heading_score = 13
  ∧ (parse_seo_content "").length_score = 13
  ∧ (parse_seo_content "").readability_score = 12
  ∧ (parse_seo_content "").relevance_score = 13
  ∧ (parse_seo_content "").intent_score = 8 := by
  obtain ⟨-, -, -, -, -, -, -, -, h9, h10, h11, h12, h13, h14⟩ := c3_parse_seo_content_spec ""
  exact ⟨h9 (by decide), h10 (by decide), h11 (by decide), h12 (by decide),
    h13 (by decide), h14 (by decide)⟩

/-- Claim C4: for every input string, `parse_trending_topic` returns a
`TrendingTopic` without raising (the embedded function is total),
extracting each field from the last line matching its exact prefix
(`TOPIC TITLE:`, `PRIMARY KEYWORDS:`, ...), with hardcoded fallback
defaults: `title`, `source`, `description` and `trending_reason`
default to the empty string and `keywords` to the empty list when their
prefix line is absent, while `relevance_score` defaults to `0.0` when
the `RELEVANCE SCORE:` line is absent and to `75.0` when the line is
present but its value is not parseable as a float. -/
theorem c4_parse_trending_topic_spec (response : String) :
    (parse_trending_topic response).title =
      (lastMatch trendSelTitle (trendLines response)).elim "" titleOf
  ∧ (parse_trending_topic response).keywords =
      (lastMatch trendSelKeywords (trendLines response)).elim [] keywordsOf
  ∧ (parse_trending_topic response).source =
      (lastMatch trendSelSource (trendLines response)).elim "" sourceOf
  ∧ (parse_trending_topic response).description =
      (lastMatch trendSelDescription (trendLines response)).elim "" descriptionOf
  ∧ (parse_trending_topic response).trending_reason =
      (lastMatch trendSelReason (trendLines response)).elim "" reasonOf
  ∧ (parse_trending_topic response).relevance_score =
      (lastMatch trendSelRelevance (trendLines response)).elim 0 relScoreOf
  ∧ ((∀ l ∈ trendLines response, isTitleLine l = false) →
      (parse_trending_topic response).title = "")
  ∧ ((∀ l ∈ trendLines response, isKeywordsLine l = false) →
      (parse_trending_topic response).keywords = [])
  ∧ ((∀ l ∈ trendLines response, isSourceLine l = false) →
      (parse_trending_topic response).source = "")
  ∧ ((∀ l ∈ trendLines response, isDescriptionLine l = false) →
      (parse_trending_topic response).description = "")
  ∧ ((∀ l ∈ trendLines response, isReasonLine l = false) →
      (parse_trending_topic response).trending_reason = "")
  ∧ ((∀ l ∈ trendLines response, isRelevanceLine l = false) →
      (parse_trending_topic response).relevance_score = 0)
  ∧ (∀ l, lastMatch trendSelRelevance (trendLines response) = some l →
      pyFloat? (relScoreStr l) = none →
      (parse_trending_topic response).relevance_score = 75) := by
  refine ⟨trend_title_char response, trend_keywords_char response, trend_source_char response,
    trend_description_char response, trend_reason_char response, trend_relevance_char response,
    ?_, ?_, ?_, ?_, ?_, ?_, ?_⟩
  · intro h
    rw [trend_title_char, (lastMatch_eq_none_iff _ _).mpr
      (fun l hl => by simp [trendSelTitle, h l hl])]
    rfl
  · intro h
    rw [trend_keywords_char, (lastMatch_eq_none_iff _ _).mpr
      (fun l hl => by simp [trendSelKeywords, h l hl])]
    rfl
  · intro h
    rw [trend_source_char, (lastMatch_eq_none_iff _ _).mpr
      (fun l hl => by simp [trendSelSource, h l hl])]
    rfl
  · intro h
    rw [trend_description_char, (lastMatch_eq_none_iff _ _).mpr
      (fun l hl => by simp [trendSelDescription, h l hl])]
    rfl
  · intro h
    rw [trend_reason_char, (lastMatch_eq_none_iff _ _).mpr
      (fun l hl => by simp [trendSelReason, h l hl])]
    rfl
  · intro h
    rw [trend_relevance_char, (lastMatch_eq_none_iff _ _).mpr
      (fun l hl => by simp [trendSelRelevance, h l hl])]
    rfl
  · intro l hl hn
    rw [trend_relevance_char, hl]
    simp only [Option.elim]
    unfold relScoreOf
    rw [hn]
    rfl

/-- Witness for C4 at the concrete inputs `""` (all defaults) and
`"RELEVANCE SCORE: high"` (relevance line present, value unparseable). -/
theorem c4_witness :
    (parse_trending_topic "").title = "" ∧ (parse_trending_topic "").keywords = []
  ∧ (parse_trending_topic "").relevance_score = 0
  ∧ (parse_trending_topic "RELEVANCE SCORE: high").relevance_score = 75 := by
  obtain ⟨-, -, -, -, -, -, h7, h8, -, -, -, h12, -⟩ := c4_parse_trending_topic_spec ""
  obtain ⟨-, -, -, -, -, -, -, -, -, -, -, -, h13⟩ :=
    c4_parse_trending_topic_spec "RELEVANCE SCORE: high"
  exact ⟨h7 (by decide), h8 (by decide), h12 (by decide),
    h13 "RELEVANCE SCORE: high" (by decide) (by decide)⟩

end HealthPulse

namespace HealthPulse

/-! ## Claim C9: `_parse_article_content` -/

lemma foldl_headingStep (ls : List String) :
    ∀ acc : List Heading, ls.foldl headingStep acc = acc ++ ls.filterMap headingOf := by
  induction ls with
  | nil => intro acc; simp
  | cons l ls ih =>
    intro acc
    simp only [List.foldl_cons, List.filterMap_cons]
    by_cases h2 : pyStartsWith l "## "
    · simp [headingStep, headingOf, h2, ih]
    · by_cases h3 : pyStartsWith l "### "
      · simp [headingStep, headingOf, h2, h3, ih]
      · simp [headingStep, headingOf, h2, h3, ih]

/-- Claim C9: for every article content string, `_parse_article_content`
sets `title` to the first of the content's first 10 lines starting with
`# ` (marker stripped), falling back to
`Complete Guide to {topic_query}: 2025 Updates` if none exists; sets
`headings` to exactly the lines starting with `## ` (level H2) or
`### ` (level H3), in document order; and sets `word_count` to the
number of whitespace-separated tokens of the content. -/
theorem c9_parse_article_content_spec (content topic_query : String)
    (trending_topic : TrendingTopic) :
    (parse_article_content content topic_query trending_topic).title =
      (((pySplitOnChar '\n' content).take 10).find? (fun l => pyStartsWith l "# ")).elim
        (s!"Complete Guide to {topic_query}: 2025 Updates") (fun l => pyStrip (pyDrop l 2))
  ∧ (parse_article_content content topic_query trending_topic).headings =
      (pySplitOnChar '\n' content).filterMap headingOf
  ∧ (parse_article_content content topic_query trending_topic).word_count =
      (pyWhitespaceSplit content).length := by
  refine ⟨?_, ?_, rfl⟩
  · show (match ((pySplitOnChar '\n' content).take 10).find? (fun l => pyStartsWith l "# ") with
      | some l => pyStrip (pyDrop l 2)
      | none => s!"Complete Guide to {topic_query}: 2025 Updates") = _
    cases ((pySplitOnChar '\n' content).take 10).find? (fun l => pyStartsWith l "# ") <;> rfl
  · show (pySplitOnChar '\n' content).foldl headingStep [] = _
    rw [foldl_headingStep]
    rfl

end HealthPulse

namespace HealthPulse

/-! ## Claims about the orchestration (`generate_article` and friends) -/

/-- Claim C1: for every `topic_query` and `category_path`,
`generate_article` never propagates an exception: when the live-mode
body raises (any of its chat completion calls errors), the call falls
back to demo mode and returns exactly the `ConsolidatedOutput` built
from the canned demo content.  (Totality of the embedding gives the
"never raises" part; this theorem pins down the fallback value.) -/
theorem c1_generate_article_falls_back_to_demo (oracle : Nat → Except String String)
    (topic_query category_path now : String) :
    isErrE (generate_with_openai_body oracle topic_query category_path now).1 = true →
    (generate_article true oracle topic_query category_path now).1 =
      (generate_demo topic_query category_path now).1 := by
  intro h
  show (generate_with_openai oracle topic_query category_path now).1 = _
  unfold generate_with_openai
  rcases hb : generate_with_openai_body oracle topic_query category_path now with ⟨r, tr⟩
  rw [hb] at h
  rcases r with e | o
  · rfl
  · simp [isErrE] at h

/-- Witness for C1: with an oracle whose first call raises, the body
errors and the result equals the demo output. -/
theorem c1_witness :
    isErrE (generate_with_openai_body failOracle "Medicare" "GOVERNMENT PLANS" "t").1 = true
  ∧ (generate_article true failOracle "Medicare" "GOVERNMENT PLANS" "t").1 =
      (generate_demo "Medicare" "GOVERNMENT PLANS" "t").1 :=
  ⟨by decide,
   c1_generate_article_falls_back_to_demo failOracle "Medicare" "GOVERNMENT PLANS" "t"
     (by decide)⟩

/-- Counterexample to Claim C2 as stated: on a successful live
generation the pipeline makes three model invocations, not four — the
consolidation stage runs locally and never prompts the model. -/
theorem c2_counterexample :
    modelCallCount (generate_with_openai_body okOracle "Medicare" "GOVERNMENT PLANS" "t").2 = 3
  ∧ modelCallCount (generate_with_openai_body okOracle "Medicare" "GOVERNMENT PLANS" "t").2 ≠ 4
  ∧ (callRoles (generate_with_openai_body okOracle "Medicare" "GOVERNMENT PLANS" "t").2).count
      "consolidator" = 0 := by
  refine ⟨rfl, by decide, rfl⟩

/-- Claim C2 (amended): in every successful live-mode generation the
pipeline prompts the language model three times, in the order trend
discovery (`search_agent`), writing (`content_writer`), SEO validation
(`seo_examiner`); the consolidation role makes no model invocation. -/
theorem c2_three_model_calls_in_order (oracle : Nat → Except String String)
    (topic_query category_path now : String) :
    isErrE (oracle 0) = false → isErrE (oracle 1) = false → isErrE (oracle 2) = false →
    callRoles (generate_with_openai_body oracle topic_query category_path now).2 =
      ["search_agent", "content_writer", "seo_examiner"] := by
  intro h0 h1 h2
  rcases e0 : oracle 0 with a | v0
  · rw [e0] at h0; simp [isErrE] at h0
  rcases e1 : oracle 1 with a | v1
  · rw [e1] at h1; simp [isErrE] at h1
  rcases e2 : oracle 2 with a | v2
  · rw [e2] at h2; simp [isErrE] at h2
  simp only [generate_with_openai_body, e0, e1, e2]
  rfl

/-- Witness for the amended C2 on the all-succeeding oracle. -/
theorem c2_witness :
    callRoles (generate_with_openai_body okOracle "Medicare" "GOVERNMENT PLANS" "t").2 =
      ["search_agent", "content_writer", "seo_examiner"] :=
  c2_three_model_calls_in_order okOracle "Medicare" "GOVERNMENT PLANS" "t"
    (by decide) (by decide) (by decide)

/-- Claim C6: every generation is a single sequential call chain with
fixed sleeps and no overlapping calls (the trace is a single ordered
list): a successful live generation interleaves its three model calls
with sleeps of exactly 0.3, 0.3 and 0.2 seconds, in the order trend
discovery, writing, SEO validation; a demo generation sleeps exactly
0.4, 0.4, 0.3 and 0.2 seconds between its stages. -/
theorem c6_sequential_fixed_sleeps (oracle : Nat → Except String String)
    (topic_query category_path now : String) :
    (isErrE (oracle 0) = false → isErrE (oracle 1) = false → isErrE (oracle 2) = false →
      callsAndSleeps (generate_with_openai_body oracle topic_query category_path now).2 =
        [Event.modelCall "search_agent" 500, Event.sleep (3/10),
         Event.modelCall "content_writer" 4000, Event.sleep (3/10),
         Event.modelCall "seo_examiner" 1000, Event.sleep (2/10)])
  ∧ sleepSeconds (generate_demo topic_query category_path now).2 =
      [4/10, 4/10, 3/10, 2/10] := by
  constructor
  · intro h0 h1 h2
    rcases e0 : oracle 0 with a | v0
    · rw [e0] at h0; simp [isErrE] at h0
    rcases e1 : oracle 1 with a | v1
    · rw [e1] at h1; simp [isErrE] at h1
    rcases e2 : oracle 2 with a | v2
    · rw [e2] at h2; simp [isErrE] at h2
    simp only [generate_with_openai_body, e0, e1, e2]
    rfl
  · rfl

/-- Witness for C6 on the all-succeeding oracle and concrete inputs. -/
theorem c6_witness :
    callsAndSleeps (generate_with_openai_body okOracle "Medicare" "GOVERNMENT PLANS" "t").2 =
      [Event.modelCall "search_agent" 500, Event.sleep (3/10),
       Event.modelCall "content_writer" 4000, Event.sleep (3/10),
       Event.modelCall "seo_examiner" 1000, Event.sleep (2/10)]
  ∧ sleepSeconds (generate_demo "Medicare" "GOVERNMENT PLANS" "t").2 =
      [4/10, 4/10, 3/10, 2/10] :=
  ⟨(c6_sequential_fixed_sleeps okOracle "Medicare" "GOVERNMENT PLANS" "t").1
     (by decide) (by decide) (by decide),
   (c6_sequential_fixed_sleeps okOracle "Medicare" "GOVERNMENT PLANS" "t").2⟩

lemma body_ok_download (oracle : Nat → Except String String)
    (topic_query category_path now : String) (o : ConsolidatedOutput) (tr : List Event)
    (h : generate_with_openai_body oracle topic_query category_path now = (Except.ok o, tr)) :
    o.download_ready = true := by
  unfold generate_with_openai_body at h
  rcases e0 : oracle 0 with a | v0 <;> rw [e0] at h
  · simp at h
  rcases e1 : oracle 1 with a | v1 <;> rw [e1] at h
  · simp at h
  rcases e2 : oracle 2 with a | v2 <;> rw [e2] at h
  · simp at h
  simp only [Prod.mk.injEq, Except.ok.injEq] at h
  rw [← h.1]

/-- Claim C5: the entity records are plain data with no enforced
invariants: the `ConsolidatedOutput` constructor accepts every
combination of field values independently (each projection returns
exactly what was supplied, including `download_ready := false`), and
the only defaulted field is realised in every output the program can
produce — both demo mode and live mode (with any oracle) always return
`download_ready = true`. -/
theorem c5_records_plain_download_ready (autogen_available : Bool)
    (oracle : Nat → Except String String) (topic_query category_path now : String)
    (a : SEOArticle) (v : SEOValidation) (t : TrendingTopic) (ts cp : String) (b : Bool) :
    (generate_article autogen_available oracle topic_query category_path now).1.download_ready
      = true
  ∧ (ConsolidatedOutput.mk a v t ts cp b).article = a
  ∧ (ConsolidatedOutput.mk a v t ts cp b).seo_validation = v
  ∧ (ConsolidatedOutput.mk a v t ts cp b).trending_topic = t
  ∧ (ConsolidatedOutput.mk a v t ts cp b).generation_timestamp = ts
  ∧ (ConsolidatedOutput.mk a v t ts cp b).category_path = cp
  ∧ (ConsolidatedOutput.mk a v t ts cp b).download_ready = b := by
  refine ⟨?_, rfl, rfl, rfl, rfl, rfl, rfl⟩
  cases autogen_available with
  | false => rfl
  | true =>
    show (generate_with_openai oracle topic_query category_path now).1.download_ready = true
    unfold generate_with_openai
    rcases hb : generate_with_openai_body oracle topic_query category_path now with ⟨r, tr⟩
    rcases r with e | o
    · rfl
    · exact body_ok_download oracle topic_query category_path now o tr hb

end HealthPulse

namespace HealthPulse

/-! ## Claim C7: taxonomy lookups and `build_topic_query` -/

lemma lookup_eq_none_of_not_mem {β : Type} (k : String) (l : List (String × β))
    (h : k ∉ l.map Prod.fst) : l.lookup k = none := by
  induction l with
  | nil => rfl
  | cons p l ih =>
    rcases p with ⟨k', v⟩
    simp only [List.map_cons, List.mem_cons] at h
    push_neg at h
    have hne : (k == k') = false := beq_eq_false_iff_ne.mpr h.1
    simp [List.lookup, hne, ih h.2]

/-- Counterexample to Claim C7 as stated: `build_topic_query` tests
`specific` (and `subcategory`, `detailed`) for Python truthiness, so an
empty string that is given and differs from `"ALL"` is nevertheless not
appended; the claim's reading would append it. -/
theorem c7_counterexample :
    build_topic_query "GOVERNMENT PLANS" "ALL" (some "") none = "GOVERNMENT PLANS"
  ∧ build_topic_query_claimed "GOVERNMENT PLANS" "ALL" (some "") none = "GOVERNMENT PLANS - "
  ∧ ("GOVERNMENT PLANS" : String) ≠ "GOVERNMENT PLANS - " := by
  refine ⟨by decide, by decide, by decide⟩

/-- Claim C7 (amended): the taxonomy lookups are total over the static
nested dictionaries — for every name not present at its level the
functions `get_subcategories`, `get_specific_topics` and
`get_detailed_topics` return the empty list (they cannot raise, being
total functions) — and for all inputs `build_topic_query` returns the
`" - "`-join of `main_category`, then `subcategory` if non-empty and
different from `"ALL"`, then `specific` if given, non-empty and
different from `"ALL"`, then `detailed` if given and non-empty. -/
theorem c7_taxonomy_total_and_query_join (main_category subcategory : String)
    (specific detailed : Option String) :
    build_topic_query main_category subcategory specific detailed =
      build_topic_query_amended main_category subcategory specific detailed
  ∧ (∀ m, m ∉ get_main_categories → get_subcategories m = [])
  ∧ (∀ m s, s ∉ get_subcategories m → get_specific_topics m s = [])
  ∧ (∀ m s sp, sp ∉ get_specific_topics m s → get_detailed_topics m s sp = []) := by
  refine ⟨?_, ?_, ?_, ?_⟩
  · unfold build_topic_query build_topic_query_amended
    rcases specific with _ | sp <;> rcases detailed with _ | dt <;>
      dsimp only <;> split_ifs <;>
      simp [pyJoin, String.append_assoc, String.append_empty, String.empty_append]
  · intro m hm
    unfold get_subcategories
    rw [lookup_eq_none_of_not_mem m TOPIC_HIERARCHY hm]
  · intro m s hs
    unfold get_specific_topics
    cases hm : TOPIC_HIERARCHY.lookup m with
    | none => rfl
    | some d =>
      have hs' : s ∉ d.map Prod.fst := by
        intro hmem
        apply hs
        unfold get_subcategories
        rw [hm]
        exact hmem
      dsimp only
      rw [lookup_eq_none_of_not_mem s d hs']
  · intro m s sp hsp
    unfold get_detailed_topics
    cases hm : TOPIC_HIERARCHY.lookup m with
    | none => rfl
    | some d =>
      dsimp only
      cases hd : d.lookup s with
      | none => rfl
      | some sub =>
        cases sub with
        | topics ts => rfl
        | grouped children =>
          have hsp' : sp ∉ children.map Prod.fst := by
            intro hmem
            apply hsp
            unfold get_specific_topics
            rw [hm]
            dsimp only
            rw [hd]
            exact hmem
          dsimp only
          rw [lookup_eq_none_of_not_mem sp children hsp']

/-- Witness for the amended C7 at concrete inputs: a populated query
join and the three empty-list fallbacks on absent names. -/
theorem c7_witness :
    build_topic_query "GOVERNMENT PLANS" "Medicare" (some "Part A") (some "Hospice") =
      build_topic_query_amended "GOVERNMENT PLANS" "Medicare" (some "Part A") (some "Hospice")
  ∧ get_subcategories "NOT A CATEGORY" = []
  ∧ get_specific_topics "GOVERNMENT PLANS" "NOT A SUBCATEGORY" = []
  ∧ get_detailed_topics "GOVERNMENT PLANS" "Medicare" "NOT A SPECIFIC" = [] :=
  ⟨(c7_taxonomy_total_and_query_join "GOVERNMENT PLANS" "Medicare" (some "Part A")
      (some "Hospice")).1,
   (c7_taxonomy_total_and_query_join "GOVERNMENT PLANS" "Medicare" (some "Part A")
      (some "Hospice")).2.1 "NOT A CATEGORY" (by decide),
   (c7_taxonomy_total_and_query_join "GOVERNMENT PLANS" "Medicare" (some "Part A")
      (some "Hospice")).2.2.1 "GOVERNMENT PLANS" "NOT A SUBCATEGORY" (by decide),
   (c7_taxonomy_total_and_query_join "GOVERNMENT PLANS" "Medicare" (some "Part A")
      (some "Hospice")).2.2.2 "GOVERNMENT PLANS" "Medicare" "NOT A SPECIFIC" (by decide)⟩

end HealthPulse

namespace HealthPulse

/-! ## Claims C8 and C10: `utils/document_export.py` -/

lemma collapseWs_chars (cs : List Char) :
    ∀ (prev : Bool), (∀ c ∈ cs, (pyIsWordChar c || pyIsSpace c || c = '-') = true) →
      ∀ c ∈ collapseWsAux cs prev, (pyIsWordChar c || c = '-' || c = '_') = true := by
  induction cs with
  | nil => intro prev _ c hc; simp [collapseWsAux] at hc
  | cons a cs ih =>
    intro prev h c hc
    simp only [collapseWsAux] at hc
    by_cases hs : pyIsSpace a
    · rw [if_pos hs] at hc
      rcases List.mem_append.mp hc with h1 | h2
      · cases prev with
        | true => exact absurd h1 (List.not_mem_nil c)
        | false =>
          have h1' : c = '_' := by simpa using h1
          subst h1'
          decide
      · exact ih true (fun c hc => h c (List.mem_cons_of_mem _ hc)) c h2
    · rw [if_neg hs] at hc
      rcases List.mem_cons.mp hc with h1 | h2
      · subst h1
        have := h c (List.mem_cons_self _ _)
        simp only [Bool.or_eq_true] at this ⊢
        rcases this with (hw | hsp) | hd
        · exact Or.inl (Or.inl hw)
        · exact absurd hsp (by simpa using hs)
        · exact Or.inl (Or.inr hd)
      · exact ih false (fun c hc => h c (List.mem_cons_of_mem _ hc)) c h2

lemma string_data_mk (l : List Char) : (String.mk l).data = l := rfl

lemma all_ascii_filter (l : List Char) :
    (l.filter (fun c => decide (c.toNat < 128))).all (fun c => decide (c.toNat < 128)) = true := by
  rw [List.all_eq_true]
  intro c hc
  exact (List.mem_filter.mp hc).2

set_option maxHeartbeats 2000000 in
/-- Claim C8, behaviour at the failing inputs plus the ASCII guarantee:
the four curly-quote characters U+2018, U+2019, U+201C, U+201D are
dropped by `sanitize_text_for_pdf` instead of being replaced by ASCII
quotes as the source's own comments intend — the two dict lines meant
to map them are swallowed by Python's triple-quote tokenization
— while the final `encode('ascii','ignore')` still makes every output
character ASCII (code point below 128) for every input. -/
theorem c8_sanitize_curly_quotes_dropped :
    sanitize_text_for_pdf "‘’“”" = ""
  ∧ sanitize_text_for_pdf "’" ≠ "\'"
  ∧ ∀ s : String, (sanitize_text_for_pdf s).data.all (fun c => decide (c.toNat < 128)) = true := by
  refine ⟨by decide, by decide, ?_⟩
  intro s
  unfold sanitize_text_for_pdf
  dsimp only
  rw [string_data_mk]
  exact all_ascii_filter _

/-- Claim C10: for every title, format and timestamp,
`get_download_filename` returns
`HealthPulse_<clean>_<timestamp>.<format>` where `<clean>` is the title
with all characters other than word characters, whitespace and hyphens
removed, runs of whitespace replaced by a single underscore, and
truncated to at most 50 characters — so `<clean>` is at most 50
characters long and holds only word characters, hyphens and
underscores. -/
theorem c10_download_filename_spec (title format timestamp : String) :
    get_download_filename title format timestamp =
      "HealthPulse_" ++ cleanForFilename title ++ "_" ++ timestamp ++ "." ++ format
  ∧ (cleanForFilename title).length ≤ 50
  ∧ (cleanForFilename title).data.all
      (fun c => pyIsWordChar c || c = '-' || c = '_') = true := by
  refine ⟨rfl, ?_, ?_⟩
  · show ((collapseWsAux (title.data.filter
      (fun c => pyIsWordChar c || pyIsSpace c || c = '-')) false).take 50).length ≤ 50
    exact List.length_take_le _ _
  · rw [List.all_eq_true]
    intro c hc
    have hc' : c ∈ collapseWsAux
        (title.data.filter (fun c => pyIsWordChar c || pyIsSpace c || c = '-')) false :=
      List.take_subset _ _ hc
    refine collapseWs_chars _ false ?_ c hc'
    intro d hd
    have hp := List.of_mem_filter hd
    exact hp

end HealthPulse
